import Mathlib

/-!
# Verification of the any2vp9 / any2arch extraction and transcode pipeline

This file gives a shallow embedding of the decision logic of the
`any2vp9.py` (and, where relevant, `any2arch.py`) pipeline orchestrator and
proves properties of that logic.

Modelling conventions:

* Python integers become `Nat`/`Int`; Python floats probed from decimal
  text and the float literals `1.001`/`0.00001` are embedded as exact
  rationals (`ℚ`), since the probed values are short decimal strings and
  all operations used on them (ceil, division, absolute value, comparison)
  are exact on `ℚ`.
* Raising an exception becomes returning `Except.error` with the exact
  message string raised by the source; statements after a raising call are
  modelled as unreachable on the error path.
* External subprocesses are modelled by their observable interface: an
  exit code (`Nat`, zero meaning success) and, for chapter extraction, the
  textual chapter list they produce, modelled in parsed form.
* The chapter list text handled by `AVExtractor.extract_chapters` is
  modelled line by line in parsed form: `ChapLine.time i h m s ms` stands
  for the text line `CHAPTERii=hh:mm:ss.mmm` (the groups of
  `CHAPTERS_TIME_RE`), `ChapLine.title1 i n` for `CHAPTERiiNAME=Chapter nn`
  (`CHAPTERS_TITLE_1_RE`) and `ChapLine.title2 i name` for
  `CHAPTERiiNAME=name` with a free-form title (`CHAPTERS_TITLE_2_RE`).
  Output lines carry `Int` fields because the source renumbers with
  unbounded Python integer subtraction.
-/

namespace Any2VP9

/-- A parsed input line of the simple chapter schema, as matched by the
three regular expressions of `AVExtractor` in `any2vp9.py`. -/
inductive ChapLine where
  | time (idx h m s ms : Nat)
  | title1 (idx n : Nat)
  | title2 (idx : Nat) (name : String)
deriving DecidableEq, Repr

/-- A rewritten output line produced by `AVExtractor.extract_chapters`.
Indices are `Int` because the source renumbers with Python integer
subtraction, which may in principle go below zero. -/
inductive OutLine where
  | time (idx h m s ms : Int)
  | title1 (idx n : Int)
  | title2 (idx : Int) (name : String)
deriving DecidableEq, Repr

/-- Total milliseconds of `datetime.timedelta(hours, minutes, seconds,
milliseconds)` as built from the four regex groups of a time line. -/
def toMs (h m s ms : Nat) : Nat :=
  ((h * 60 + m) * 60 + s) * 1000 + ms

/-- The four printed fields `HH`, `MM`, `SS`, `mmm` of a
`datetime.timedelta` holding `t` milliseconds, following the Python
normalization (`days`/`seconds`/`microseconds` with
`0 <= seconds < 86400`): the source prints
`seconds // 3600`, `seconds // 60 % 60`, `seconds % 60` and
`microseconds // 1000`.  Lean `Int` division and modulo agree with the
Python semantics here because the divisors are positive. -/
def timedeltaFields (t : Int) : Int × Int × Int × Int :=
  let rem := t % 86400000
  let secs := rem / 1000
  (secs / 3600, secs / 60 % 60, secs % 60, rem % 1000)

/-- The retain condition applied to every line in
`AVExtractor.extract_chapters`: the original index is at least
`chap_start` (when given) and at most `chap_end` (when given). -/
def inRangeB (cs ce : Option Nat) (idx : Nat) : Bool :=
  (match cs with
   | none => true
   | some s => decide (s ≤ idx)) &&
  (match ce with
   | none => true
   | some e => decide (idx ≤ e))

/-- The start-chapter lookup
`re.search(r'^CHAPTER' + str(chap_start).zfill(2) + '=...', chapters)`:
the first time line whose index equals `chap_start`, returning the total
milliseconds of its timestamp groups.  On two-digit zero-padded chapter
text the literal pattern built from `zfill` matches a time line exactly
when the parsed index equals `chap_start`. -/
def findStart (lines : List ChapLine) (s : Nat) : Option Nat :=
  lines.findSome? fun l =>
    match l with
    | .time i h m sec ms => if i = s then some (toMs h m sec ms) else none
    | .title1 _ _ => none
    | .title2 _ _ => none

/-- The per-line rewrite of the `for line in chapters.splitlines()` loop:
a line is kept exactly when its original index is in range; kept lines get
index `idx - offset_index` and time lines get the timestamp
`timedelta - offset_time` printed through the timedelta fields.  The
`Chapter nn` auto-title number of a `title1` line is renumbered the same
way; the free-form name of a `title2` line is copied verbatim. -/
def remapLine (offIdx : Int) (offMs : Nat) (cs ce : Option Nat) :
    ChapLine → Option OutLine
  | .time i h m s ms =>
    if inRangeB cs ce i then
      let f := timedeltaFields ((toMs h m s ms : Int) - (offMs : Int))
      some (.time ((i : Int) - offIdx) f.1 f.2.1 f.2.2.1 f.2.2.2)
    else none
  | .title1 i n =>
    if inRangeB cs ce i then
      some (.title1 ((i : Int) - offIdx) ((n : Int) - offIdx))
    else none
  | .title2 i nm =>
    if inRangeB cs ce i then some (.title2 ((i : Int) - offIdx) nm) else none

/-- `AVExtractor.extract_chapters` after the raw chapter text has been
obtained from the external tool: when `chap_start` is given the offset
entry is looked up (raising when absent), otherwise both offsets are zero;
then every line is rewritten by `remapLine`.  The source guards the offset
computation by `chap_start is not None or chap_end is not None`, but when
only `chap_end` is given it also uses zero offsets, so matching on
`chap_start` alone is equivalent. -/
def extract_chapters_model (cs ce : Option Nat) (lines : List ChapLine) :
    Except String (List OutLine) :=
  match cs with
  | some s =>
    match findStart lines s with
    | none => .error "Start chapter could not be found!"
    | some offMs => .ok (lines.filterMap (remapLine ((s : Int) - 1) offMs cs ce))
  | none => .ok (lines.filterMap (remapLine 0 0 cs ce))

/-- The parsed chapter text of a source whose chapters are
`(index, timestamp in ms, title)` triples: one time line and one free-form
title line per chapter, in order, with the timestamp split into the
`hh`, `mm`, `ss`, `mmm` groups of the simple chapter schema. -/
def chapterLines (chaps : List (Nat × Nat × String)) : List ChapLine :=
  (chaps.map fun c =>
    [ChapLine.time c.1 (c.2.1 / 3600000) (c.2.1 % 3600000 / 60000)
      (c.2.1 % 60000 / 1000) (c.2.1 % 1000),
     ChapLine.title2 c.1 c.2.2]).flatten

/-- The two output lines the specification expects for a retained chapter
`c` when the sub-range starts at chapter `s` whose timestamp is `ts`
milliseconds: the index is renumbered down by `s - 1` and the timestamp is
shifted down by `ts` (natural subtraction suffices because the offset is
at most every retained timestamp), printed as `hh`, `mm`, `ss`, `mmm`. -/
def shiftedChapterOut (s ts : Nat) (c : Nat × Nat × String) : List OutLine :=
  [OutLine.time ((c.1 : Int) - ((s : Int) - 1))
    (((c.2.1 - ts) / 3600000 : Nat) : Int)
    (((c.2.1 - ts) % 3600000 / 60000 : Nat) : Int)
    (((c.2.1 - ts) % 60000 / 1000 : Nat) : Int)
    (((c.2.1 - ts) % 1000 : Nat) : Int),
   OutLine.title2 ((c.1 : Int) - ((s : Int) - 1)) c.2.2]

/-- The chapter step of `main` (`any2vp9.py` lines 364 to 371): chapters
are extracted only when the probe reported chapters and `--no-chapters`
was not given; otherwise `chapters_path` is set to `None` and the job
continues.  The result carries `some` rewritten chapter lines or `none`
for a skipped chapter step. -/
def mainChapterPhase (has_chapters no_chapters : Bool)
    (cs ce : Option Nat) (lines : List ChapLine) :
    Except String (Option (List OutLine)) :=
  if has_chapters && !no_chapters then
    (extract_chapters_model cs ce lines).map some
  else
    .ok none

/-- The audio strategies of `main`, as an abstract action: an action is
reached only when the corresponding tool pipeline is actually started.
`decodeThenEncode` carries the channel count passed to the generic
decoder via `-channels`. -/
inductive AudioAction where
  | passThroughExtract
  | extractThenReencode
  | decodeThenEncode (channels : Nat)
deriving DecidableEq, Repr

/-- `encode_vorbis_audio`: after wiring the pipe, the decode process is
waited on first and a nonzero exit raises the decoding error; only then is
the encode process waited on.  Exit codes are the observable behavior of
the two external processes. -/
def encode_vorbis_audio_model (extractExit encodeExit : Nat) :
    Except String Unit :=
  if extractExit ≠ 0 then .error "Error occurred in decoding process!"
  else if encodeExit ≠ 0 then .error "Error occurred in encoding process!"
  else .ok ()

/-- `encode_vp9_video_pass1`: same wait-and-raise protocol as the audio
pipe, for the statistics-gathering pass. -/
def encode_vp9_video_pass1_model (extractExit encodeExit : Nat) :
    Except String Unit :=
  if extractExit ≠ 0 then .error "Error occurred in decoding process!"
  else if encodeExit ≠ 0 then .error "Error occurred in encoding process!"
  else .ok ()

/-- `encode_vp9_video_pass2`: same wait-and-raise protocol, for the final
output pass. -/
def encode_vp9_video_pass2_model (extractExit encodeExit : Nat) :
    Except String Unit :=
  if extractExit ≠ 0 then .error "Error occurred in decoding process!"
  else if encodeExit ≠ 0 then .error "Error occurred in encoding process!"
  else .ok ()

/-- Observable events of the video section of `main`. -/
inductive Event where
  | pass1Launched (stats : String)
  | pass1Completed
  | pass2Launched (stats : String)
  | pass2Completed
deriving DecidableEq, Repr

/-- The video section of `main` (`any2vp9.py` lines 424 to 432) as an
event trace: pass 1 is launched with the statistics path `vpx_stats`;
when it raises, the exception aborts the job before the pass 2 line is
reached; otherwise pass 2 is launched with the very same `vpx_stats_path`
variable.  The four exit codes are those of the decode and encode
processes of each pass. -/
def videoSection (vpx_stats : String) (p1dec p1enc p2dec p2enc : Nat) :
    List Event × Option String :=
  match encode_vp9_video_pass1_model p1dec p1enc with
  | .error e => ([.pass1Launched vpx_stats], some e)
  | .ok _ =>
    match encode_vp9_video_pass2_model p2dec p2enc with
    | .error e =>
      ([.pass1Launched vpx_stats, .pass1Completed, .pass2Launched vpx_stats],
        some e)
    | .ok _ =>
      ([.pass1Launched vpx_stats, .pass1Completed, .pass2Launched vpx_stats,
        .pass2Completed], none)

/-- Process-wide mutable state touched by attachment extraction: the
current working directory. -/
structure ProcState where
  cwd : String
deriving DecidableEq, Repr

/-- `AVExtractor.extract_attachments` in `any2vp9.py` (the
`AVFile.extract_attachments` body in `any2arch.py` has the same chdir
structure): make the directory, remember the current working directory,
change into the new directory, run `mkvextract` via
`subprocess.check_call`, change back.  There is no `try`/`finally`: when
`check_call` raises because the tool exited nonzero, the trailing
`os.chdir(cwd)` line is never executed and the raised error propagates
with the working directory still set to `directory`. -/
def extract_attachments_model (s0 : ProcState) (directory : String)
    (toolExit : Nat) : ProcState × Except String Unit :=
  let cwd := s0.cwd
  let s1 : ProcState := ⟨directory⟩
  if toolExit ≠ 0 then (s1, .error "CalledProcessError")
  else (⟨cwd⟩, .ok ())

/-- The frame-rate storage rule of `AVExtractor` (`any2vp9.py` lines 77 to
83) and `AVFile` (`any2arch.py` lines 136 to 142): a probed rate within
relative error `0.00001` of `ceil(f)/1.001` is snapped to the exact
rational `(ceil(f)*1000, 1001)`; otherwise `fractions.Fraction(f)` stores
the exact value of `f` in lowest terms.  Probed floats are embedded as
exact rationals. -/
def snapFramerate (f : ℚ) : ℤ × ℤ :=
  if |(⌈f⌉ : ℚ) / 1.001 - f| / f < 0.00001 then (⌈f⌉ * 1000, 1001)
  else (f.num, (f.den : ℤ))

/-- The keyframe distance derivation shared by `encode_vp9_video_pass1`,
`encode_vp9_video_pass2` (`any2vp9.py`) and the VP8 encoders
(`any2arch.py`):
`math.floor(float(framerate[0]) / float(framerate[1]) * 10.0)`, with the
float arithmetic embedded exactly over `ℚ`. -/
def kf_max_dist (framerate : ℤ × ℤ) : ℤ :=
  ⌊((framerate.1 : ℚ) / (framerate.2 : ℚ)) * 10⌋

/-- The attribute names assigned on `self` by `AVExtractor.__init__`, in
assignment order, for a source described by its disc type, whether the
path ends in `.MKV`, and whether the probe found subtitles.  Private
double-underscore members are kept under their mangled-free names.  Note
that the `mkvmerge` identify output of the Matroska branch (line 116) is
bound to a local variable only and is deliberately absent here: no
`__init__` path assigns it on `self`. -/
def avextractor_attrs (disc_type : Option String)
    (is_matroska has_subtitles : Bool) : List String :=
  ["path", "disc_type", "mplayer_input_args"] ++
  (if disc_type = some "dvd" ∨ disc_type = some "bluray"
    then ["disc_title"] else []) ++
  (if disc_type ≠ some "bluray"
    then ["video_codec", "video_dimensions", "video_framerate",
          "video_framerate_frac"]
    else []) ++
  ["audio_samplerate", "audio_channels", "audio_codec", "chap_start",
   "chap_end", "is_matroska"] ++
  (if disc_type = some "dvd" then
    ["has_chapters", "attachment_cnt", "has_subtitles"]
  else if is_matroska then
    ["has_chapters", "attachment_cnt"] ++
      (if has_subtitles then ["has_subtitles", "mkv_subtitle_tracknum"]
       else ["has_subtitles"])
  else
    ["has_chapters", "attachment_cnt", "has_subtitles"])

/-- Python attribute lookup on a modelled instance: reading a name that
was never assigned raises `AttributeError`. -/
def getattr_model (attrs : List String) (name : String) :
    Except String Unit :=
  if name ∈ attrs then .ok () else .error "AttributeError"

/-- Whether the parsed chapter text has a time line with index `s`
(the lines the start-chapter lookup of `extract_chapters` can match). -/
def hasTimeIdx (lines : List ChapLine) (s : Nat) : Bool :=
  lines.any fun l =>
    match l with
    | .time i _ _ _ _ => i == s
    | .title1 _ _ => false
    | .title2 _ _ => false

/-- Observable steps of the attachment branch of `main`. -/
inductive AttachStep where
  | printedCount
  | ranExtractTool
deriving DecidableEq, Repr

/-- The attachment step of `main` (`any2vp9.py` lines 373 to 380): when
the probe counted attachments and `--no-attachments` was not given, the
progress line interpolates `extractor.attachments_cnt` before
`extract_attachments` is called; an `AttributeError` in that lookup
aborts the branch before any step is taken. -/
def mainAttachmentPhase (attrs : List String) (attachment_cnt : Nat)
    (no_attachments : Bool) : List AttachStep × Except String Unit :=
  if attachment_cnt > 0 ∧ no_attachments = false then
    match getattr_model attrs "attachments_cnt" with
    | .error e => ([], .error e)
    | .ok _ => ([.printedCount, .ranExtractTool], .ok ())
  else ([], .ok ())

/-- `AVExtractor.extract_audio` (`any2vp9.py` lines 190 to 195): the
Matroska, Vorbis, no-sub-range branch first evaluates
`self.__mkvmerge_probe_out` while building the `mkvextract` track
argument; since `__init__` (line 116) binds the `mkvmerge` identify
output to a local variable only, this attribute lookup raises
`AttributeError` before `check_call` runs.  Any other input raises the
not-Vorbis error.  An `ok` action is returned only where the tool would
actually be started. -/
def extract_audio_model (attrs : List String) (is_matroska : Bool)
    (cs ce : Option Nat) (audio_codec : String) :
    Except String AudioAction :=
  if is_matroska ∧ cs = none ∧ ce = none ∧ audio_codec = "ffvorbis" then
    match getattr_model attrs "mkvmerge_probe_out" with
    | .error e => .error e
    | .ok _ => .ok .passThroughExtract
  else .error "Cannot extract audio (audio is not Vorbis)."

/-- `AVExtractor.decode_audio` (`any2vp9.py` lines 197 to 202): the
Matroska, FLAC, no-sub-range branch likewise evaluates
`self.__mkvmerge_probe_out` while building the `mkvextract` pipe
arguments and so raises `AttributeError` before the process is started;
every other input starts the generic `mplayer` PCM decode of the
configured source honoring the probed channel count. -/
def decode_audio_model (attrs : List String) (is_matroska : Bool)
    (cs ce : Option Nat) (audio_codec : String) (audio_channels : Nat) :
    Except String AudioAction :=
  if is_matroska ∧ cs = none ∧ ce = none ∧ audio_codec = "ffflac" then
    match getattr_model attrs "mkvmerge_probe_out" with
    | .error e => .error e
    | .ok _ => .ok .extractThenReencode
  else .ok (.decodeThenEncode audio_channels)

/-- The audio step of `main` (`any2vp9.py` lines 393 to 402): a Matroska
source with Vorbis audio and no chapter sub-range calls `extract_audio`
(container-native pass-through); every other case pipes `decode_audio`
into the Vorbis encoder.  An error raised inside either callee aborts the
job before any artifact is produced. -/
def mainAudioPhase (attrs : List String) (is_matroska : Bool)
    (cs ce : Option Nat) (audio_codec : String) (audio_channels : Nat) :
    Except String AudioAction :=
  if is_matroska ∧ cs = none ∧ ce = none ∧ audio_codec = "ffvorbis" then
    extract_audio_model attrs is_matroska cs ce audio_codec
  else
    decode_audio_model attrs is_matroska cs ce audio_codec audio_channels

/-! ## Helper lemmas -/

/-- Any two members of a pairwise-related list are equal or related one
way or the other. -/
theorem pairwise_mem_rel {α : Type} {R : α → α → Prop} :
    ∀ {l : List α}, l.Pairwise R → ∀ {a b : α}, a ∈ l → b ∈ l →
      a = b ∨ R a b ∨ R b a := by
  intro l
  induction l with
  | nil =>
    intro _ a b ha _
    cases ha
  | cons x xs ih =>
    intro hl a b ha hb
    have hx : ∀ y ∈ xs, R x y := (List.pairwise_cons.mp hl).1
    have hxs : xs.Pairwise R := (List.pairwise_cons.mp hl).2
    rcases List.mem_cons.mp ha with ha1 | ha2
    · rcases List.mem_cons.mp hb with hb1 | hb2
      · exact Or.inl (ha1.trans hb1.symm)
      · refine Or.inr (Or.inl ?_)
        rw [ha1]
        exact hx b hb2
    · rcases List.mem_cons.mp hb with hb1 | hb2
      · refine Or.inr (Or.inr ?_)
        rw [hb1]
        exact hx a ha2
      · exact ih hxs ha2 hb2

/-! ## Claim theorems -/

/-- C1: code bug evidence.  No `__init__` path assigns the `mkvmerge`
probe output attribute that `extract_audio` and the FLAC branch of
`decode_audio` read, so on every Matroska probe path the claimed
lossless pass-through case (Vorbis, no sub-range) and the FLAC
extract-then-re-encode case raise `AttributeError` before any tool is
invoked and no audio artifact is produced, while any other codec, or any
requested sub-range, reaches the generic decode-and-encode path with the
probed channel count exactly as the strategy matrix describes. -/
theorem c1_audio_lossless_branches_attribute_error
    (disc_type : Option String) (has_subtitles : Bool)
    (cs ce : Option Nat) (channels : Nat) :
    "mkvmerge_probe_out" ∉ avextractor_attrs disc_type true has_subtitles ∧
    mainAudioPhase (avextractor_attrs disc_type true has_subtitles) true
      none none "ffvorbis" channels = .error "AttributeError" ∧
    mainAudioPhase (avextractor_attrs disc_type true has_subtitles) true
      none none "ffflac" channels = .error "AttributeError" ∧
    mainAudioPhase (avextractor_attrs disc_type true has_subtitles) true
      cs ce "ffaac" channels = .ok (.decodeThenEncode channels) ∧
    mainAudioPhase (avextractor_attrs disc_type true has_subtitles) true
      (some 2) ce "ffvorbis" channels = .ok (.decodeThenEncode channels) := by
  have hno : "mkvmerge_probe_out" ∉
      avextractor_attrs disc_type true has_subtitles := by
    unfold avextractor_attrs
    split_ifs <;> decide
  refine ⟨hno, ?_, ?_, ?_, ?_⟩ <;>
    simp [mainAudioPhase, extract_audio_model, decode_audio_model,
      getattr_model, hno]

/-- C3: whenever pass 2 is launched in the video section, pass 1 was
launched and had fully completed successfully (both stage exit codes zero)
strictly before, and pass 2 is launched with exactly the statistics path
that pass 1 was given. -/
theorem c3_two_pass_ordering (vpx_stats st : String)
    (p1dec p1enc p2dec p2enc : Nat)
    (h : Event.pass2Launched st ∈
      (videoSection vpx_stats p1dec p1enc p2dec p2enc).1) :
    st = vpx_stats ∧ p1dec = 0 ∧ p1enc = 0 ∧
      (videoSection vpx_stats p1dec p1enc p2dec p2enc).1.take 3 =
        [.pass1Launched vpx_stats, .pass1Completed,
         .pass2Launched vpx_stats] := by
  rcases h1 : encode_vp9_video_pass1_model p1dec p1enc with e1 | u1
  · simp only [videoSection, h1] at h
    simp at h
  · have hz : p1dec = 0 ∧ p1enc = 0 := by
      unfold encode_vp9_video_pass1_model at h1
      by_cases hd : p1dec = 0
      · by_cases he : p1enc = 0
        · exact ⟨hd, he⟩
        · simp [hd, he] at h1
      · simp [hd] at h1
    rcases h2 : encode_vp9_video_pass2_model p2dec p2enc with e2 | u2
    · simp only [videoSection, h1, h2] at h ⊢
      simp at h
      exact ⟨h, hz.1, hz.2, rfl⟩
    · simp only [videoSection, h1, h2] at h ⊢
      simp at h
      exact ⟨h, hz.1, hz.2, rfl⟩

/-- C3 witness: a fully successful run launches pass 2 and the trace
starts with pass 1 launched, pass 1 completed, pass 2 launched, all on
the same statistics path. -/
theorem c3_two_pass_ordering_witness :
    (Event.pass2Launched "vpx_stats" ∈
      (videoSection "vpx_stats" 0 0 0 0).1) ∧
    ("vpx_stats" = "vpx_stats" ∧ 0 = 0 ∧ 0 = 0 ∧
      (videoSection "vpx_stats" 0 0 0 0).1.take 3 =
        [.pass1Launched "vpx_stats", .pass1Completed,
         .pass2Launched "vpx_stats"]) :=
  ⟨by decide, c3_two_pass_ordering "vpx_stats" "vpx_stats" 0 0 0 0
    (by decide)⟩

/-- C4: when the decode stage of a pipeline pass exits nonzero, the
reported failure names the decode stage no matter what the encode stage
exit code is, in the audio pipe and in both video passes, and after such
a failed pass 1 the pass 2 launch event never occurs. -/
theorem c4_decode_failure_reported (d e : Nat) (stats st : String)
    (p2dec p2enc : Nat) (hd : d ≠ 0) :
    encode_vorbis_audio_model d e =
      .error "Error occurred in decoding process!" ∧
    encode_vp9_video_pass1_model d e =
      .error "Error occurred in decoding process!" ∧
    encode_vp9_video_pass2_model d e =
      .error "Error occurred in decoding process!" ∧
    Event.pass2Launched st ∉ (videoSection stats d e p2dec p2enc).1 := by
  have h1 : encode_vp9_video_pass1_model d e =
      .error "Error occurred in decoding process!" := by
    simp [encode_vp9_video_pass1_model, hd]
  refine ⟨?_, h1, ?_, ?_⟩
  · simp [encode_vorbis_audio_model, hd]
  · simp [encode_vp9_video_pass2_model, hd]
  · simp [videoSection, h1]

/-- C4 witness: decode exit 1 with encode exit 0 in pass 1 reports the
decode failure and pass 2 is never launched, even for the same stats
path. -/
theorem c4_decode_failure_reported_witness :
    (1 ≠ 0) ∧
    (encode_vorbis_audio_model 1 0 =
      .error "Error occurred in decoding process!" ∧
    encode_vp9_video_pass1_model 1 0 =
      .error "Error occurred in decoding process!" ∧
    encode_vp9_video_pass2_model 1 0 =
      .error "Error occurred in decoding process!" ∧
    Event.pass2Launched "vpx_stats" ∉
      (videoSection "vpx_stats" 1 0 0 0).1) :=
  ⟨by decide, c4_decode_failure_reported 1 0 "vpx_stats" "vpx_stats" 0 0
    (by decide)⟩

/-- C5: evidence of the missing `try`/`finally` in attachment extraction.
When the extraction tool fails (nonzero exit, `check_call` raises), the
call exits by exception with the working directory still set to the
attachment directory, not restored to the original; only the success path
restores it. -/
theorem c5_cwd_not_restored_on_tool_failure :
    (extract_attachments_model ⟨"/home/user"⟩
      "/tmp/any2vp9-work/attachments" 1).1.cwd =
        "/tmp/any2vp9-work/attachments" ∧
    (extract_attachments_model ⟨"/home/user"⟩
      "/tmp/any2vp9-work/attachments" 1).2 = .error "CalledProcessError" ∧
    "/tmp/any2vp9-work/attachments" ≠ "/home/user" ∧
    (extract_attachments_model ⟨"/home/user"⟩
      "/tmp/any2vp9-work/attachments" 0).1.cwd = "/home/user" := by
  exact ⟨rfl, rfl, by decide, rfl⟩

/-- C6 counterexample: a probed source without chapters together with a
requested start chapter index simply skips the chapter step with no
chapter file and no error, instead of failing. -/
theorem c6_counterexample_subrange_without_chapters :
    mainChapterPhase false false (some 2) none [] = .ok none := rfl

/-- C6 amended: when the probe reports no chapters, `main` skips chapter
extraction entirely and proceeds without a chapter file, for every
requested sub-range; no error of any kind is raised by the chapter
step. -/
theorem c6_no_chapters_skips_chapter_step (no_chapters : Bool)
    (cs ce : Option Nat) (lines : List ChapLine) :
    mainChapterPhase false no_chapters cs ce lines = .ok none := rfl

/-- C9: the derived maximum keyframe distance is the floor of
`num / den * 10`, characterized by the two defining integer
inequalities. -/
theorem c9_kf_max_dist_floor (n d : ℤ) (hd : 0 < d) :
    kf_max_dist (n, d) * d ≤ 10 * n ∧
      10 * n < (kf_max_dist (n, d) + 1) * d := by
  have hdq : (0 : ℚ) < (d : ℚ) := by exact_mod_cast hd
  have hdq0 : (d : ℚ) ≠ 0 := ne_of_gt hdq
  have key : ((n : ℚ) / (d : ℚ) * 10) * (d : ℚ) = 10 * (n : ℚ) := by
    field_simp
    ring
  constructor
  · have hfl := mul_le_mul_of_nonneg_right
      (Int.floor_le ((n : ℚ) / (d : ℚ) * 10)) (le_of_lt hdq)
    rw [key] at hfl
    have h2 : ((kf_max_dist (n, d) : ℚ)) * (d : ℚ) ≤ 10 * (n : ℚ) := hfl
    exact_mod_cast h2
  · have hlt := mul_lt_mul_of_pos_right
      (Int.lt_floor_add_one ((n : ℚ) / (d : ℚ) * 10)) hdq
    rw [key] at hlt
    have h2 : 10 * (n : ℚ) < ((kf_max_dist (n, d) : ℚ) + 1) * (d : ℚ) := hlt
    exact_mod_cast h2

/-- C9 witness: for frame rate 24000/1001 the derived maximum keyframe
distance is 239. -/
theorem c9_kf_max_dist_floor_witness :
    (0 : ℤ) < 1001 ∧ kf_max_dist (24000, 1001) = 239 := by
  have h := c9_kf_max_dist_floor 24000 1001 (by decide)
  exact ⟨by decide, by omega⟩

/-- C10: on every probe path, `AVExtractor.__init__` assigns
`attachment_cnt` and never `attachments_cnt`, so whenever the attachment
count is positive and attachments are not disabled, the attachment branch
of `main` raises `AttributeError` while building its progress line and
the extraction tool is never invoked. -/
theorem c10_attachments_attribute_error (disc_type : Option String)
    (is_matroska has_subtitles : Bool) (cnt : Nat) (hcnt : 0 < cnt) :
    "attachments_cnt" ∉ avextractor_attrs disc_type is_matroska has_subtitles ∧
    "attachment_cnt" ∈ avextractor_attrs disc_type is_matroska has_subtitles ∧
    mainAttachmentPhase (avextractor_attrs disc_type is_matroska has_subtitles)
      cnt false = ([], .error "AttributeError") ∧
    AttachStep.ranExtractTool ∉
      (mainAttachmentPhase
        (avextractor_attrs disc_type is_matroska has_subtitles) cnt false).1 := by
  have hno : "attachments_cnt" ∉
      avextractor_attrs disc_type is_matroska has_subtitles := by
    unfold avextractor_attrs
    split_ifs <;> decide
  have hyes : "attachment_cnt" ∈
      avextractor_attrs disc_type is_matroska has_subtitles := by
    unfold avextractor_attrs
    split_ifs <;> decide
  have hrun : mainAttachmentPhase
      (avextractor_attrs disc_type is_matroska has_subtitles) cnt false =
        ([], .error "AttributeError") := by
    unfold mainAttachmentPhase getattr_model
    rw [if_pos ⟨hcnt, rfl⟩, if_neg hno]
  refine ⟨hno, hyes, hrun, ?_⟩
  rw [hrun]
  simp

/-- C10 witness: a chapterless Matroska probe with one attachment.  The
attachment branch fails with `AttributeError` before running the tool. -/
theorem c10_attachments_attribute_error_witness :
    0 < 1 ∧
    ("attachments_cnt" ∉ avextractor_attrs none true false ∧
     "attachment_cnt" ∈ avextractor_attrs none true false ∧
     mainAttachmentPhase (avextractor_attrs none true false) 1 false =
       ([], .error "AttributeError") ∧
     AttachStep.ranExtractTool ∉
       (mainAttachmentPhase (avextractor_attrs none true false) 1 false).1) :=
  ⟨by decide, c10_attachments_attribute_error none true false 1 (by decide)⟩

/-- C7: for a probed frame rate `f > 0`, when the relative error of `f`
against `ceil(f)/1.001` is below `0.00001` the stored rational is exactly
`(ceil(f)*1000, 1001)`; otherwise it is `f` in lowest terms, and dividing
numerator by denominator reproduces `f` exactly, in particular within the
same relative tolerance. -/
theorem c7_framerate_snapping (f : ℚ) (hf : 0 < f) :
    ((|(⌈f⌉ : ℚ) / 1.001 - f| / f < 0.00001) →
      snapFramerate f = (⌈f⌉ * 1000, 1001)) ∧
    (¬(|(⌈f⌉ : ℚ) / 1.001 - f| / f < 0.00001) →
      snapFramerate f = (f.num, (f.den : ℤ)) ∧
      Int.gcd f.num (f.den : ℤ) = 1 ∧
      (f.num : ℚ) / (f.den : ℚ) = f ∧
      |(f.num : ℚ) / (f.den : ℚ) - f| / f < 0.00001) := by
  constructor
  · intro hcond
    simp only [snapFramerate, if_pos hcond]
  · intro hcond
    refine ⟨by simp only [snapFramerate, if_neg hcond], ?_, Rat.num_div_den f, ?_⟩
    · have hr := f.reduced
      simpa [Int.gcd, Nat.Coprime] using hr
    · rw [Rat.num_div_den, sub_self, abs_zero, zero_div]
      norm_num

/-- C7 witness: the probed NTSC-film rate 23.976 is snapped to the exact
rational 24000/1001. -/
theorem c7_framerate_snapping_witness :
    (0 : ℚ) < 23.976 ∧ snapFramerate 23.976 = (24000, 1001) := by
  have hceil : (⌈(23.976 : ℚ)⌉ : ℤ) = 24 := by
    rw [Int.ceil_eq_iff]
    constructor <;> norm_num
  have hcond : |(⌈(23.976 : ℚ)⌉ : ℚ) / 1.001 - 23.976| / 23.976 < 0.00001 := by
    rw [hceil]
    rw [abs_of_pos (by norm_num)]
    norm_num
  have h := (c7_framerate_snapping 23.976 (by norm_num)).1 hcond
  rw [h, hceil]
  exact ⟨by norm_num, by norm_num⟩

/-- Splitting a millisecond count into the `hh`, `mm`, `ss`, `mmm`
groups of a time line and rebuilding the timedelta is the identity. -/
theorem toMs_split (t : Nat) :
    toMs (t / 3600000) (t % 3600000 / 60000) (t % 60000 / 1000)
      (t % 1000) = t := by
  unfold toMs
  omega

/-- On a nonnegative sub-day millisecond count, the printed timedelta
fields are plain hour, minute, second and millisecond components. -/
theorem timedeltaFields_eval (x : Int) (h0 : 0 ≤ x) (h1 : x < 86400000) :
    timedeltaFields x =
      (x / 3600000, x % 3600000 / 60000, x % 60000 / 1000, x % 1000) := by
  unfold timedeltaFields
  simp only [Prod.mk.injEq]
  refine ⟨?_, ?_, ?_, ?_⟩ <;> omega

/-- The rewrite of the two parsed lines of one retained chapter: the
index is renumbered down by `startIndex - 1` and the timestamp shifted
down by the offset timestamp. -/
theorem filterMap_remap_single (s ts : Nat) (ce : Option Nat)
    (c : Nat × Nat × String) (h1 : ts ≤ c.2.1) (h2 : c.2.1 < 86400000)
    (hc : inRangeB (some s) ce c.1 = true) :
    List.filterMap (remapLine ((s : Int) - 1) ts (some s) ce)
      [ChapLine.time c.1 (c.2.1 / 3600000) (c.2.1 % 3600000 / 60000)
        (c.2.1 % 60000 / 1000) (c.2.1 % 1000),
       ChapLine.title2 c.1 c.2.2] = shiftedChapterOut s ts c := by
  have htoMs : toMs (c.2.1 / 3600000) (c.2.1 % 3600000 / 60000)
      (c.2.1 % 60000 / 1000) (c.2.1 % 1000) = c.2.1 := toMs_split c.2.1
  have hx0 : (0 : Int) ≤ (c.2.1 : Int) - (ts : Int) := by omega
  have hx1 : (c.2.1 : Int) - (ts : Int) < 86400000 := by omega
  have e1 : ((c.2.1 : Int) - (ts : Int)) / 3600000 =
      (((c.2.1 - ts) / 3600000 : Nat) : Int) := by omega
  have e2 : ((c.2.1 : Int) - (ts : Int)) % 3600000 / 60000 =
      (((c.2.1 - ts) % 3600000 / 60000 : Nat) : Int) := by omega
  have e3 : ((c.2.1 : Int) - (ts : Int)) % 60000 / 1000 =
      (((c.2.1 - ts) % 60000 / 1000 : Nat) : Int) := by omega
  have e4 : ((c.2.1 : Int) - (ts : Int)) % 1000 =
      (((c.2.1 - ts) % 1000 : Nat) : Int) := by omega
  simp only [List.filterMap_cons, List.filterMap_nil, remapLine, hc,
    if_true, htoMs, shiftedChapterOut]
  rw [timedeltaFields_eval _ hx0 hx1]
  rw [e1, e2, e3, e4]

/-- The remap loop over the rendered chapter lines keeps exactly the
in-range chapters and rewrites each by `shiftedChapterOut`. -/
theorem remap_chapterLines (s ts : Nat) (ce : Option Nat)
    (chaps : List (Nat × Nat × String))
    (hcond : ∀ c ∈ chaps, inRangeB (some s) ce c.1 = true →
      ts ≤ c.2.1 ∧ c.2.1 < 86400000) :
    (chapterLines chaps).filterMap (remapLine ((s : Int) - 1) ts (some s) ce) =
      ((chaps.filter fun c => inRangeB (some s) ce c.1).map
        (shiftedChapterOut s ts)).flatten := by
  induction chaps with
  | nil => rfl
  | cons c l ih =>
    have hcl : ∀ x ∈ l, inRangeB (some s) ce x.1 = true →
        ts ≤ x.2.1 ∧ x.2.1 < 86400000 :=
      fun x hx => hcond x (List.mem_cons_of_mem c hx)
    have hc2 : chapterLines (c :: l) =
        [ChapLine.time c.1 (c.2.1 / 3600000) (c.2.1 % 3600000 / 60000)
          (c.2.1 % 60000 / 1000) (c.2.1 % 1000),
         ChapLine.title2 c.1 c.2.2] ++ chapterLines l := rfl
    rw [hc2, List.filterMap_append, ih hcl]
    by_cases hc : inRangeB (some s) ce c.1
    · obtain ⟨h1, h2⟩ := hcond c (List.mem_cons_self c l) hc
      rw [filterMap_remap_single s ts ce c h1 h2 hc]
      simp [List.filter_cons, hc]
    · have hnil : List.filterMap (remapLine ((s : Int) - 1) ts (some s) ce)
          [ChapLine.time c.1 (c.2.1 / 3600000) (c.2.1 % 3600000 / 60000)
            (c.2.1 % 60000 / 1000) (c.2.1 % 1000),
           ChapLine.title2 c.1 c.2.2] = [] := by
        have hcf : inRangeB (some s) ce c.1 = false := by
          simpa using hc
        simp [List.filterMap_cons, remapLine, hcf]
      rw [hnil, List.nil_append]
      have hcf : inRangeB (some s) ce c.1 = false := by
        simpa using hc
      simp [List.filter_cons, hcf]

/-- The start-chapter lookup over rendered chapter lines finds the unique
chapter with the start index and yields its timestamp. -/
theorem findStart_chapterLines (s ts : Nat) (nm : String)
    (chaps : List (Nat × Nat × String))
    (huniq : ∀ c ∈ chaps, c.1 = s → c = (s, ts, nm))
    (hmem : (s, ts, nm) ∈ chaps) :
    findStart (chapterLines chaps) s = some ts := by
  induction chaps with
  | nil => cases hmem
  | cons c l ih =>
    have hc2 : chapterLines (c :: l) =
        ChapLine.time c.1 (c.2.1 / 3600000) (c.2.1 % 3600000 / 60000)
          (c.2.1 % 60000 / 1000) (c.2.1 % 1000) ::
        ChapLine.title2 c.1 c.2.2 :: chapterLines l := rfl
    rw [hc2]
    by_cases hcs : c.1 = s
    · have hce : c = (s, ts, nm) := huniq c (List.mem_cons_self c l) hcs
      subst hce
      simp only [findStart, List.findSome?_cons]
      simp [toMs_split]
    · have hmem2 : (s, ts, nm) ∈ l := by
        rcases List.mem_cons.mp hmem with h | h
        · exact absurd (congrArg Prod.fst h.symm) hcs
        · exact h
      have huniq2 : ∀ x ∈ l, x.1 = s → x = (s, ts, nm) :=
        fun x hx => huniq x (List.mem_cons_of_mem c hx)
      have ihres := ih huniq2 hmem2
      simp only [findStart, List.findSome?_cons, hcs, if_false]
      simpa [findStart] using ihres

/-- C2: for a valid chapter list (pairwise increasing indices and
strictly increasing sub-day timestamps) and a requested sub-range whose
start index matches chapter `(s, ts, nm)`, the rewritten output consists
exactly of the chapters whose original index lies in the inclusive range
(an open end bound is unbounded), in order, each renumbered down by
`s - 1` (hence contiguously from 1 for a contiguous source) and with its
timestamp shifted down by `ts`, so the retained start chapter sits at
time zero. -/
theorem c2_chapter_subrange_remap (chaps : List (Nat × Nat × String))
    (s ts : Nat) (nm : String) (ce : Option Nat)
    (hpw : chaps.Pairwise fun a b => a.1 < b.1 ∧ a.2.1 < b.2.1)
    (hbound : ∀ c ∈ chaps, c.2.1 < 86400000)
    (hmem : (s, ts, nm) ∈ chaps) :
    extract_chapters_model (some s) ce (chapterLines chaps) =
      .ok (((chaps.filter fun c => inRangeB (some s) ce c.1).map
        (shiftedChapterOut s ts)).flatten) := by
  have huniq : ∀ c ∈ chaps, c.1 = s → c = (s, ts, nm) := by
    intro c hc h1
    rcases pairwise_mem_rel hpw hc hmem with h | h | h
    · exact h
    · exact absurd h.1 (by simp [h1])
    · exact absurd h.1 (by simp [h1])
  have hcond : ∀ c ∈ chaps, inRangeB (some s) ce c.1 = true →
      ts ≤ c.2.1 ∧ c.2.1 < 86400000 := by
    intro c hc hr
    refine ⟨?_, hbound c hc⟩
    have hs : s ≤ c.1 := by
      unfold inRangeB at hr
      cases ce with
      | none => simpa using hr
      | some e =>
        simp only [Bool.and_eq_true, decide_eq_true_eq] at hr
        exact hr.1
    rcases pairwise_mem_rel hpw hc hmem with h | h | h
    · rw [h]
    · exact absurd h.1 (by omega)
    · exact le_of_lt h.2
  have hfind := findStart_chapterLines s ts nm chaps huniq hmem
  have hremap := remap_chapterLines s ts ce chaps hcond
  simp only [extract_chapters_model, hfind, hremap]

/-- C2 witness: chapters `1@0s A`, `2@10s B`, `3@25s C` with range
`(2, 3)` remap to `1@0s B`, `2@15s C`. -/
theorem c2_chapter_subrange_remap_witness :
    ((([(1, 0, "A"), (2, 10000, "B"), (3, 25000, "C")] :
        List (Nat × Nat × String)).Pairwise
          fun a b => a.1 < b.1 ∧ a.2.1 < b.2.1) ∧
      (∀ c ∈ ([(1, 0, "A"), (2, 10000, "B"), (3, 25000, "C")] :
        List (Nat × Nat × String)), c.2.1 < 86400000) ∧
      (((2 : Nat), (10000 : Nat), "B") ∈
        ([(1, 0, "A"), (2, 10000, "B"), (3, 25000, "C")] :
          List (Nat × Nat × String)))) ∧
    extract_chapters_model (some 2) (some 3)
        (chapterLines [(1, 0, "A"), (2, 10000, "B"), (3, 25000, "C")]) =
      .ok [OutLine.time 1 0 0 0 0, OutLine.title2 1 "B",
           OutLine.time 2 0 0 15 0, OutLine.title2 2 "C"] := by
  refine ⟨⟨by decide, by decide, by decide⟩, ?_⟩
  have h := c2_chapter_subrange_remap
    [(1, 0, "A"), (2, 10000, "B"), (3, 25000, "C")] 2 10000 "B" (some 3)
    (by decide) (by decide) (by decide)
  rw [h]
  rfl

/-- C8: when the requested start chapter index appears on no time line of
the chapter text, chapter remapping fails with the start-chapter error
and never clamps: the result is the error, not a chapter list. -/
theorem c8_missing_start_chapter_errors (lines : List ChapLine) (s : Nat)
    (ce : Option Nat) (h : hasTimeIdx lines s = false) :
    extract_chapters_model (some s) ce lines =
      .error "Start chapter could not be found!" := by
  have hfind : ∀ ls : List ChapLine, hasTimeIdx ls s = false →
      findStart ls s = none := by
    intro ls
    induction ls with
    | nil => intro _; rfl
    | cons l rest ih =>
      intro hany
      simp only [hasTimeIdx, List.any_cons, Bool.or_eq_false_iff] at hany
      have hrest := ih (by simpa [hasTimeIdx] using hany.2)
      cases l with
      | time i h m sec ms =>
        have hi : i ≠ s := by
          have := hany.1
          simpa using this
        simp only [findStart, List.findSome?_cons, hi, if_false]
        simpa [findStart] using hrest
      | title1 i n =>
        simp only [findStart, List.findSome?_cons]
        simpa [findStart] using hrest
      | title2 i nm =>
        simp only [findStart, List.findSome?_cons]
        simpa [findStart] using hrest
  simp only [extract_chapters_model, hfind lines h]

/-- C8 witness: chapters 1 and 3 exist but a start at chapter 2 is
requested; the remap reports the missing start chapter. -/
theorem c8_missing_start_chapter_errors_witness :
    hasTimeIdx (chapterLines [(1, 0, "A"), (3, 25000, "C")]) 2 = false ∧
    extract_chapters_model (some 2) none
        (chapterLines [(1, 0, "A"), (3, 25000, "C")]) =
      .error "Start chapter could not be found!" :=
  ⟨by decide,
   c8_missing_start_chapter_errors
     (chapterLines [(1, 0, "A"), (3, 25000, "C")]) 2 none (by decide)⟩

end Any2VP9
